import Mathlib

/-
Shallow embedding of the no-side-effects library (src/src/index.ts).
JavaScript runtime values are modelled by the inductive type JSVal;
a synchronous computation (a thunk) is modelled by its outcome, either
a normal return or a thrown value; a deferred computation (a promise)
is modelled by its settlement, either a resolution or a rejection, using
the same Outcome type.  The second argument of the adapters is either a
string tag, a handler function, or absent; JavaScript falsiness of a
string is emptiness, so the runtime check written !tagOrOnError holds
for the absent argument and for the empty string.
-/

namespace NoSideEffects

/-- Model of a JavaScript runtime value: undefined, null, a boolean, a
number (integers suffice for this development), a string, an error object
(message plus optional cause, as built by the Error constructor), or a
plain object given by its ordered field list. -/
inductive JSVal : Type where
  | jsUndefined : JSVal
  | jsNull : JSVal
  | boolean : Bool → JSVal
  | num : Int → JSVal
  | str : String → JSVal
  | errObj : String → Option JSVal → JSVal
  | obj : List (String × JSVal) → JSVal

/-- The instanceof Error test of the catch clause: true exactly on error
objects. -/
def isError : JSVal → Bool
  | .errObj _ _ => true
  | _ => false

/-- The String(x) coercion of JavaScript, as used on line 162 of
src/src/index.ts for a thrown non-error value. -/
def jsString : JSVal → String
  | .jsUndefined => "undefined"
  | .jsNull => "null"
  | .boolean b => if b then "true" else "false"
  | .num n => toString n
  | .str s => s
  | .errObj m _ => if m = "" then "Error" else "Error: " ++ m
  | .obj _ => "[object Object]"

/-- Property access v[k] on a JavaScript value: the value of the first
field named k when v is an object holding such a field, undefined
otherwise. -/
def getField (v : JSVal) (k : String) : JSVal :=
  match v with
  | .obj fields =>
    match fields.find? (fun f => f.fst == k) with
    | some f => f.snd
    | none => .jsUndefined
  | _ => .jsUndefined

/-- The message of an error object, none on any other value. -/
def errMessage : JSVal → Option String
  | .errObj m _ => some m
  | _ => none

/-- The cause of an error object, none on any other value or when the
error object carries no cause. -/
def errCause : JSVal → Option JSVal
  | .errObj _ c => c
  | _ => none

/-- The error constructor of src/src/index.ts lines 19 to 21: builds the
record with status "error", the given error value and the given tag.  At
the dynamic level both parameters are arbitrary values; a call with a
single argument passes undefined for the tag. -/
def error (e : JSVal) (tag : JSVal) : JSVal :=
  .obj [("status", .str "error"), ("error", e), ("tag", tag)]

/-- The ok constructor of src/src/index.ts lines 50 to 54: builds the
record with status "success" and the given data; a call with no argument
passes undefined for the data, and the data field is then present with
value undefined. -/
def ok (data : JSVal) : JSVal :=
  .obj [("status", .str "success"), ("data", data)]

/-- Outcome of running a computation: a normal return of a value, or a
thrown value.  For a deferred computation the same type stands for its
settlement, resolution or rejection. -/
inductive Outcome : Type where
  | ret : JSVal → Outcome
  | thrown : JSVal → Outcome

/-- The second argument of the adapters: a string tag, a handler
function, or absent (undefined). -/
inductive ErrorPolicy : Type where
  | tagArg : String → ErrorPolicy
  | handler : (JSVal → JSVal) → ErrorPolicy
  | noArg : ErrorPolicy

/-- The tryCatch adapter of src/src/index.ts lines 151 to 164.  The
computation fn is modelled by its outcome.  On a normal return the value
is wrapped by ok.  On a thrown value: a handler function is applied and
its result returned; otherwise, when the second argument is falsy
(absent, or the empty string), a fresh error reading Tag is required is
thrown; otherwise an error object is wrapped as is, and any other thrown
value is stringified and wrapped in a fresh error object. -/
def tryCatch (fn : Outcome) (p : ErrorPolicy) : Outcome :=
  match fn with
  | .ret v => .ret (ok v)
  | .thrown err =>
    match p with
    | .handler h => .ret (h err)
    | .tagArg t =>
      if t = "" then .thrown (.errObj "Tag is required" none)
      else if isError err then .ret (error err (.str t))
      else .ret (error (.errObj (jsString err) none) (.str t))
    | .noArg => .thrown (.errObj "Tag is required" none)

/-- The tryCatchAsync adapter of src/src/index.ts lines 223 to 236,
translated on its own from its own body: the deferred computation is
modelled by its settlement, a throw inside the async body is a rejection
of the returned promise. -/
def tryCatchAsync (fn : Outcome) (p : ErrorPolicy) : Outcome :=
  match fn with
  | .ret v => .ret (ok v)
  | .thrown err =>
    match p with
    | .handler h => .ret (h err)
    | .tagArg t =>
      if t = "" then .thrown (.errObj "Tag is required" none)
      else if isError err then .ret (error err (.str t))
      else .ret (error (.errObj (jsString err) none) (.str t))
    | .noArg => .thrown (.errObj "Tag is required" none)

/-- C1: for a non-empty tag t, when the computation throws an error
object the adapter returns error applied to that very object and the tag,
identity (message and cause included) preserved; when it throws a
non-error value x the adapter returns a record with status "error", tag
t, and a freshly constructed error object (no cause) whose message is
String x. -/
theorem tryCatch_throw_tag_spec (x : JSVal) (t : String) (ht : t ≠ "") :
    (isError x = true →
      tryCatch (Outcome.thrown x) (ErrorPolicy.tagArg t) = Outcome.ret (error x (JSVal.str t))) ∧
    (isError x = false →
      tryCatch (Outcome.thrown x) (ErrorPolicy.tagArg t) =
        Outcome.ret (error (JSVal.errObj (jsString x) none) (JSVal.str t)) ∧
      getField (error (JSVal.errObj (jsString x) none) (JSVal.str t)) "status" = JSVal.str "error" ∧
      getField (error (JSVal.errObj (jsString x) none) (JSVal.str t)) "tag" = JSVal.str t ∧
      errMessage (getField (error (JSVal.errObj (jsString x) none) (JSVal.str t)) "error") =
        some (jsString x) ∧
      errCause (getField (error (JSVal.errObj (jsString x) none) (JSVal.str t)) "error") = none) := by
  constructor
  · intro hx
    simp [tryCatch, ht, hx]
  · intro hx
    exact ⟨by simp [tryCatch, ht, hx], rfl, rfl, rfl, rfl⟩

/-- Witness for C1 at the thrown error object boom with tag X. -/
theorem tryCatch_throw_tag_spec_witness :
    tryCatch (Outcome.thrown (JSVal.errObj "boom" none)) (ErrorPolicy.tagArg "X") =
      Outcome.ret (error (JSVal.errObj "boom" none) (JSVal.str "X")) :=
  (tryCatch_throw_tag_spec (JSVal.errObj "boom" none) "X" (by decide)).1 rfl

/-- C2: when the computation returns normally with value v, the adapter
returns ok v whatever the second argument is; the tag or handler plays no
part on the success path. -/
theorem tryCatch_success_path (v : JSVal) (p : ErrorPolicy) :
    tryCatch (Outcome.ret v) p = Outcome.ret (ok v) := rfl

/-- C3 counterexample: the empty string is a supplied tag, the
computation throws, and yet the adapter raises Tag is required instead of
recovering the caught value into a returned record. -/
theorem tryCatch_emptyTag_cex :
    tryCatch (Outcome.thrown (JSVal.str "x")) (ErrorPolicy.tagArg "") =
      Outcome.thrown (JSVal.errObj "Tag is required" none) ∧
    ¬ ∃ r, tryCatch (Outcome.thrown (JSVal.str "x")) (ErrorPolicy.tagArg "") = Outcome.ret r := by
  exact ⟨rfl, by simp [tryCatch]⟩

/-- C3 amended: the adapter raises an exception of its own exactly when
the computation throws and the second argument is absent or the empty
string, and what it raises is the error Tag is required; with a handler
or a non-empty tag every caught value is recovered into a returned
record. -/
theorem tryCatch_raises_iff (fn : Outcome) (p : ErrorPolicy) :
    ((∃ e, tryCatch fn p = Outcome.thrown e) ↔
      (∃ x, fn = Outcome.thrown x) ∧ (p = ErrorPolicy.noArg ∨ p = ErrorPolicy.tagArg "")) ∧
    (∀ x, tryCatch (Outcome.thrown x) ErrorPolicy.noArg =
      Outcome.thrown (JSVal.errObj "Tag is required" none)) ∧
    (∀ x, tryCatch (Outcome.thrown x) (ErrorPolicy.tagArg "") =
      Outcome.thrown (JSVal.errObj "Tag is required" none)) := by
  refine ⟨?_, fun x => rfl, fun x => rfl⟩
  cases fn <;> cases p <;> simp [tryCatch]
  case thrown.tagArg x t =>
    by_cases ht : t = "" <;> by_cases hx : isError x = true <;> simp [ht, hx]

/-- Witness for C3 amended at a thrown string with the argument absent. -/
theorem tryCatch_raises_iff_witness :
    tryCatch (Outcome.thrown (JSVal.str "x")) ErrorPolicy.noArg =
      Outcome.thrown (JSVal.errObj "Tag is required" none) :=
  (tryCatch_raises_iff (Outcome.thrown (JSVal.str "x")) ErrorPolicy.noArg).2.1 (JSVal.str "x")

/-- C4: tryCatchAsync agrees with tryCatch on every settlement and
policy, and in particular satisfies the same four properties: a
resolution with v yields ok v, a rejection under a handler yields the
handler result, a rejection with an error object under a non-empty tag
yields error applied to that object and the tag, and a rejection with a
non-error value yields the stringified fresh error under the tag. -/
theorem tryCatchAsync_spec (v x : JSVal) (t : String) (h : JSVal → JSVal) (ht : t ≠ "") :
    (∀ (fn : Outcome) (p : ErrorPolicy), tryCatchAsync fn p = tryCatch fn p) ∧
    tryCatchAsync (Outcome.ret v) (ErrorPolicy.tagArg t) = Outcome.ret (ok v) ∧
    tryCatchAsync (Outcome.thrown x) (ErrorPolicy.handler h) = Outcome.ret (h x) ∧
    (isError x = true →
      tryCatchAsync (Outcome.thrown x) (ErrorPolicy.tagArg t) =
        Outcome.ret (error x (JSVal.str t))) ∧
    (isError x = false →
      tryCatchAsync (Outcome.thrown x) (ErrorPolicy.tagArg t) =
        Outcome.ret (error (JSVal.errObj (jsString x) none) (JSVal.str t))) := by
  refine ⟨fun fn p => by cases fn <;> cases p <;> rfl, rfl, rfl, ?_, ?_⟩
  · intro hx
    simp [tryCatchAsync, ht, hx]
  · intro hx
    simp [tryCatchAsync, ht, hx]

/-- Witness for C4 at a rejection with the raw string raw-string under
tag Y, the non-error normalization case of the spec example. -/
theorem tryCatchAsync_spec_witness :
    tryCatchAsync (Outcome.thrown (JSVal.str "raw-string")) (ErrorPolicy.tagArg "Y") =
      Outcome.ret (error (JSVal.errObj "raw-string" none) (JSVal.str "Y")) :=
  (tryCatchAsync_spec JSVal.jsUndefined (JSVal.str "raw-string") "Y" (fun e => e) (by decide)).2.2.2.2 rfl

/-- C5: with a handler h as second argument, a computation that throws
the value caught makes the adapter return exactly h applied to caught,
with no reinterpretation or inspection of either the caught value or the
handler result. -/
theorem tryCatch_handler_spec (h : JSVal → JSVal) (caught : JSVal) :
    tryCatch (Outcome.thrown caught) (ErrorPolicy.handler h) = Outcome.ret (h caught) := rfl

/-- C6: the error constructor returns the record with status "error",
the error value passed through unchanged and the tag, for every error
value and every string tag, with no validation; as a total function it
cannot fail. -/
theorem error_ctor_spec (e : JSVal) (t : String) :
    error e (JSVal.str t) =
      JSVal.obj [("status", JSVal.str "error"), ("error", e), ("tag", JSVal.str t)] ∧
    getField (error e (JSVal.str t)) "status" = JSVal.str "error" ∧
    getField (error e (JSVal.str t)) "error" = e ∧
    getField (error e (JSVal.str t)) "tag" = JSVal.str t := ⟨rfl, rfl, rfl, rfl⟩

/-- C7: the ok constructor returns the record with status "success" and
the given data for every value; a call with no argument, which passes
undefined, gives status "success" and undefined (hence no usable) data;
as a total function it cannot fail. -/
theorem ok_ctor_spec (v : JSVal) :
    ok v = JSVal.obj [("status", JSVal.str "success"), ("data", v)] ∧
    getField (ok v) "status" = JSVal.str "success" ∧
    getField (ok v) "data" = v ∧
    getField (ok JSVal.jsUndefined) "status" = JSVal.str "success" ∧
    getField (ok JSVal.jsUndefined) "data" = JSVal.jsUndefined := ⟨rfl, rfl, rfl, rfl, rfl⟩

/-- C8 counterexample: a call of the error constructor with a single
payload record (so the tag parameter is undefined) does not return the
record that the positional call error boom X returns. -/
theorem error_payload_cex :
    error (JSVal.obj [("error", JSVal.errObj "boom" none), ("tag", JSVal.str "X")]) JSVal.jsUndefined ≠
      JSVal.obj [("status", JSVal.str "error"), ("error", JSVal.errObj "boom" none),
        ("tag", JSVal.str "X")] := by
  simp [error]

/-- C8 amended: the error constructor supports only the positional
calling convention, returning the record with status "error", the error
value and the tag; a call with a single payload record instead stores the
whole payload record in the error field and undefined in the tag field. -/
theorem error_callconv_spec (e : JSVal) (t : String) :
    error e (JSVal.str t) =
      JSVal.obj [("status", JSVal.str "error"), ("error", e), ("tag", JSVal.str t)] ∧
    error (JSVal.obj [("error", e), ("tag", JSVal.str t)]) JSVal.jsUndefined =
      JSVal.obj [("status", JSVal.str "error"),
        ("error", JSVal.obj [("error", e), ("tag", JSVal.str t)]),
        ("tag", JSVal.jsUndefined)] := ⟨rfl, rfl⟩

/-- C9: the runtime check treats the empty string tag as absent, so on
any caught value both adapters raise Tag is required under the empty tag
instead of returning a record tagged with the empty string. -/
theorem emptyTag_treated_as_absent (x : JSVal) :
    tryCatch (Outcome.thrown x) (ErrorPolicy.tagArg "") =
      Outcome.thrown (JSVal.errObj "Tag is required" none) ∧
    tryCatchAsync (Outcome.thrown x) (ErrorPolicy.tagArg "") =
      Outcome.thrown (JSVal.errObj "Tag is required" none) ∧
    (¬ ∃ r, tryCatch (Outcome.thrown x) (ErrorPolicy.tagArg "") = Outcome.ret r) := by
  exact ⟨rfl, rfl, by simp [tryCatch]⟩

/-- C10: both adapters apply the success constructor unconditionally to
a normal return, so a computation returning an already wrapped success
record s produces the nested record ok s, which differs from s itself. -/
theorem tryCatch_wraps_nested (s : JSVal) (p : ErrorPolicy) :
    tryCatch (Outcome.ret (ok s)) p = Outcome.ret (ok (ok s)) ∧
    tryCatchAsync (Outcome.ret (ok s)) p = Outcome.ret (ok (ok s)) ∧
    ok (ok s) ≠ ok s := by
  refine ⟨rfl, rfl, ?_⟩
  intro h
  have hs := congrArg sizeOf h
  simp [ok] at hs
  omega

end NoSideEffects
